import Mathlib

/-!
Shallow embedding of the maze-generation and raycast-rendering core of the
Escape repository (js/maze.js, js/utils.js, js/main.js, the player movement
file and the raycasting renderer file), together with proofs about the
claims of the specification.

Conventions of the embedding:
* JS numbers are modelled by `ℚ`; the integer-valued computations of the
  generator (LCG states, Fisher-Yates indices, grid coordinates) are
  modelled by `ℕ`/`ℤ` with the modular arithmetic written out explicitly,
  so they coincide with the float code, whose values stay far below 2^53.
* A thrown JS exception is modelled with `Except`: the error value carries
  the instance state at the moment the exception propagates (mutations
  performed before the throw persist on the instance, exactly as in JS,
  where the `catch` in `startNewRun` observes the partially-updated
  instance).
* `Math.sin`, `Math.cos`, `Math.atan2`, `Math.sqrt` are irrational-valued
  externals; functions that call them take them as explicit function
  parameters, and theorems quantify over them.
* The grid `this.grid` (an array of rows, `grid[y][x]`) is modelled as a
  total function `ℤ → ℤ → ℕ`.  Every in-bounds entry is written by the
  initialization loops of `generate()` before anything reads it; reads of
  missing entries only happen through the bounds-checked accessors, whose
  `|| 1` maps `undefined` to `1`, which is the value our total function
  carries outside the written area as well.
* Mutation of instance state is modelled by explicit state passing; methods
  that write no instance field return their state unchanged.
-/

/-- JS `v || 1` applied to a numeric cell value: `0` (and `undefined`,
i.e. a missing entry) are falsy and coerce to `1`. -/
def jsOr1 (v : ℕ) : ℕ := if v = 0 then 1 else v

/-- `Math.floor` on the rational model of a JS number (floor division of
the numerator by the denominator; kernel-computable). -/
def jsFloor (q : ℚ) : ℤ := Int.fdiv q.num q.den

theorem jsFloor_eq_floor (q : ℚ) : jsFloor q = ⌊q⌋ := by
  rw [jsFloor, Int.fdiv_eq_ediv _ (by exact_mod_cast Nat.zero_le q.den), Rat.floor_def]

namespace Utils

/-- One step of the linear congruential generator inside
`Utils.seededRandom`: `value = (value * 9301 + 49297) % 233280`. -/
def seededRandomStep (v : ℕ) : ℕ := (v * 9301 + 49297) % 233280

/-- The float returned by one call of the closure produced by
`Utils.seededRandom`: `value / 233280` for the updated `value`. -/
def seededRandomValue (v : ℕ) : ℚ := (v : ℚ) / 233280

end Utils

/-- A grid of cell values, `grid y x` = row `y`, column `x`
(1 = wall, 0 = path). -/
abbrev MazeGrid := ℤ → ℤ → ℕ

/-- `this.grid[y][x] = v`. -/
def gridSet (g : MazeGrid) (y x : ℤ) (v : ℕ) : MazeGrid :=
  fun y2 x2 => if y2 = y ∧ x2 = x then v else g y2 x2

/-- The mutable state threaded through maze generation: dimensions, the
grid, the visited array, the current LCG state of `this.rng`, and the exit
cell recorded by `createExit` (if any). -/
structure GenState where
  width : ℤ
  height : ℤ
  grid : MazeGrid
  visited : ℤ → ℤ → Bool
  rng : ℕ
  exitUpd : Option (ℤ × ℤ)

/-- One call `this.rng()`: updates the LCG state and reports the new state
(the float the closure returns is the new state divided by 233280). -/
def drawRng (s : GenState) : ℕ × GenState :=
  let v := Utils.seededRandomStep s.rng
  (v, { s with rng := v })

/-- The state of a `Maze` instance: dimensions, `cellSize`, the seed, the
current LCG state of `this.rng`, the grid and visited arrays, the
display-effect fields `surrealOffset` and `warpSeed`, and the exit cell
(`this.exitX`/`this.exitY`, `none` while still `undefined`). -/
structure Maze where
  width : ℤ
  height : ℤ
  cellSize : ℚ
  seed : ℕ
  rng : ℕ
  grid : MazeGrid
  visited : ℤ → ℤ → Bool
  surrealOffset : ℚ
  warpSeed : ℚ
  exit : Option (ℤ × ℤ)

namespace Maze

/-- `Maze.isValidCell(x, y)`: strictly interior cells. -/
def isValidCell (w h x y : ℤ) : Bool :=
  decide (0 < x ∧ x < w - 1 ∧ 0 < y ∧ y < h - 1)

/-- The destructuring swap `[arr[i], arr[j]] = [arr[j], arr[i]]`. -/
def listSwap {α : Type} (l : List α) (i j : ℕ) : List α :=
  match l.get? i, l.get? j with
  | some a, some b => (l.set i b).set j a
  | _, _ => l

/-- The loop of `Maze.shuffleSeeded` for the current index `i = n + 1`
(the loop runs `i` from `arr.length - 1` down to `1`; each iteration draws
`j = Math.floor(rng() * (i + 1))` and swaps positions `i` and `j`). -/
def shuffleGo (l : List (ℤ × ℤ)) (s : GenState) : ℕ → List (ℤ × ℤ) × GenState
  | 0 => (l, s)
  | n + 1 =>
    let p := drawRng s
    let j := p.1 * (n + 2) / 233280
    shuffleGo (listSwap l (n + 1) j) p.2 n

/-- `Maze.shuffleSeeded(array)` (seeded Fisher-Yates). -/
def shuffleSeeded (l : List (ℤ × ℤ)) (s : GenState) : List (ℤ × ℤ) × GenState :=
  shuffleGo l s (l.length - 1)

/-- The direction list of `carvePath` (north, east, south, west, as
`[dx, dy]` pairs at distance 2). -/
def carveDirections : List (ℤ × ℤ) := [(0, -2), (2, 0), (0, 2), (-2, 0)]

/-- The two unconditional writes at the top of `carvePath`:
`this.grid[y][x] = 0; this.visited[y][x] = true;`. -/
def carveCellMark (s : GenState) (x y : ℤ) : GenState :=
  { s with
    grid := gridSet s.grid y x 0,
    visited := fun y2 x2 => if y2 = y ∧ x2 = x then true else s.visited y2 x2 }

/-- `Maze.carvePath(x, y, depth)`.  The source carves and marks the cell
(`this.grid[y][x] = 0; this.visited[y][x] = true;`), declares
`const directions = [...]`, and then executes
`directions = this.shuffleSeeded(directions)`.  The right-hand side runs
first, consuming the three Fisher-Yates draws of the four-element shuffle;
the assignment to the `const` binding `directions` then throws
`TypeError: Assignment to constant variable.` in the strict-mode class
body, so nothing after that line — the depth check, the valid-direction
scan, the carve loop, the recursion — ever executes.  The thrown exception
is modelled as `Except.error` carrying the instance state at the moment it
propagates (the cell marked, the three draws consumed). -/
def carvePath (s : GenState) (x y : ℤ) : Except GenState GenState :=
  let s1 := carveCellMark s x y
  Except.error (shuffleSeeded carveDirections s1).2

/-- Carve (set to 0) every position of a list, in order
(positions are `(x, y)` pairs, written as `grid[y][x] = 0`). -/
def carveCells (g : MazeGrid) (ps : List (ℤ × ℤ)) : MazeGrid :=
  ps.foldl (fun g2 p => gridSet g2 p.2 p.1 0) g

/-- The positions written by the 3x3 cardinal clearing loop shared by
`clearSpawnArea` and `ensureHallwaySpawn` (`dy` outer, `dx` inner, write
guarded by the bounds check and `dx === 0 || dy === 0`). -/
def crossCells (w h sx sy : ℤ) : List (ℤ × ℤ) :=
  ([-1, 0, 1] : List ℤ).flatMap fun dy =>
    ([-1, 0, 1] : List ℤ).filterMap fun dx =>
      if (0 ≤ sx + dx ∧ sx + dx < w ∧ 0 ≤ sy + dy ∧ sy + dy < h) ∧ (dx = 0 ∨ dy = 0) then
        some (sx + dx, sy + dy)
      else none

/-- The positions written by the hallway loop of `clearSpawnArea`
(directions `[10,0],[0,10],[-10,0],[0,-10]`, `steps = max(|dx|,|dy|)`,
cell `(sx + floor(dx*i/steps), sy + floor(dy*i/steps))` for `i = 0..steps`,
write guarded by the bounds check). -/
def clearSpawnHallwayCells (w h sx sy : ℤ) : List (ℤ × ℤ) :=
  ([((10 : ℤ), (0 : ℤ)), (0, 10), (-10, 0), (0, -10)]).flatMap fun d =>
    let steps : ℕ := max d.1.natAbs d.2.natAbs
    (List.range (steps + 1)).filterMap fun i =>
      let x := sx + Int.fdiv (d.1 * i) steps
      let y := sy + Int.fdiv (d.2 * i) steps
      if 0 ≤ x ∧ x < w ∧ 0 ≤ y ∧ y < h then some (x, y) else none

/-- `Maze.clearSpawnArea(spawnX, spawnY)`. -/
def clearSpawnArea (s : GenState) (sx sy : ℤ) : GenState :=
  let cells := crossCells s.width s.height sx sy ++ clearSpawnHallwayCells s.width s.height sx sy
  { s with grid := carveCells s.grid cells }

/-- The positions written by one direction of the hallway loop of
`ensureHallwaySpawn` (`i = 1..8`, stopping at the first out-of-bounds cell:
the loop body has an `else break`). -/
def hallwayCells (w h sx sy : ℤ) (d : ℤ × ℤ) : List (ℤ × ℤ) :=
  ((List.range' 1 8).map fun i => (sx + d.1 * i, sy + d.2 * i)).takeWhile
    fun p => decide (0 ≤ p.1 ∧ p.1 < w ∧ 0 ≤ p.2 ∧ p.2 < h)

/-- `Maze.ensureHallwaySpawn()` (spawn fixed at `(1, 1)`). -/
def ensureHallwaySpawn (s : GenState) : GenState :=
  let cells := crossCells s.width s.height 1 1 ++
    ([((1 : ℤ), (0 : ℤ)), (0, 1), (-1, 0), (0, -1)]).flatMap (hallwayCells s.width s.height 1 1)
  { s with grid := carveCells s.grid cells }

/-- An edge candidate of `createExit`: the cell probed for a path and the
outward direction. -/
structure ExitEdge where
  x : ℤ
  y : ℤ
  dx : ℤ
  dy : ℤ
deriving DecidableEq

/-- The candidate list of `createExit`, in scan order: east, south, west,
north border mid-points. -/
def exitEdges (w h : ℤ) : List ExitEdge :=
  [⟨w - 2, h / 2, 1, 0⟩, ⟨w / 2, h - 2, 0, 1⟩, ⟨1, h / 2, -1, 0⟩, ⟨w / 2, 1, 0, -1⟩]

/-- The `for (const edge of edges)` loop of `createExit`: the first
candidate whose probed cell is a path gets the adjacent outward cell
carved (subject to the bounds check) and recorded, and the loop returns;
otherwise scanning continues. -/
def createExitGo (s : GenState) : List ExitEdge → GenState
  | [] => s
  | e :: rest =>
    if s.grid e.y e.x = 0 then
      let exitX := e.x + e.dx
      let exitY := e.y + e.dy
      if 0 ≤ exitX ∧ exitX < s.width ∧ 0 ≤ exitY ∧ exitY < s.height then
        { s with grid := gridSet s.grid exitY exitX 0, exitUpd := some (exitX, exitY) }
      else createExitGo s rest
    else createExitGo s rest

/-- `Maze.createExit()`. -/
def createExit (s : GenState) : GenState :=
  createExitGo s (exitEdges s.width s.height)

/-- `Maze.generate(startX, startY)`: resets grid and visited, re-seeds the
LCG from `this.seed`, consumes one draw for `this.warpSeed`, initializes
the grid to all walls, clears the spawn area, and calls
`carvePath(startX, startY)` — which throws, so the exception propagates to
the caller of `generate()` with the instance keeping every write performed
up to the throw, and the remaining statements (`ensureHallwaySpawn()`,
`createExit()`, `return this.grid`) never execute.  The normal-return
branch mirrors the remaining source text; it is unreachable because
`carvePath` never returns normally. -/
def generate (m : Maze) (sx sy : ℤ) : Except Maze Maze :=
  let s0 : GenState :=
    { width := m.width, height := m.height, grid := fun _ _ => 1,
      visited := fun _ _ => false, rng := m.seed, exitUpd := none }
  let s1 := (drawRng s0).2
  let warp := Utils.seededRandomValue (Utils.seededRandomStep m.seed) * 1000
  let s2 := clearSpawnArea s1 sx sy
  match carvePath s2 sx sy with
  | Except.error st =>
    Except.error
      { m with
        rng := st.rng,
        grid := st.grid,
        visited := st.visited,
        warpSeed := warp }
  | Except.ok s3 =>
    let s5 := createExit (ensureHallwaySpawn s3)
    Except.ok
      { m with
        rng := s5.rng,
        grid := s5.grid,
        visited := s5.visited,
        warpSeed := warp,
        exit := match s5.exitUpd with
          | some e => some e
          | none => m.exit }

/-- The observation a caller makes of a call that threw: the instance
state at the moment the exception propagated to it (`none` for a call that
returned normally).  In the game, `startNewRun` wraps `generate()` in a
`try`/`catch`, so this partial state is exactly what the handler sees. -/
def thrownState : Except Maze Maze → Option Maze
  | Except.error mz => some mz
  | Except.ok _ => none

/-- `Maze.getGridCell(gridX, gridY)`: bounds-checked direct grid access;
out of bounds yields `1`, and the value is read as `this.grid[y][x] || 1`. -/
def getGridCell (m : Maze) (gridX gridY : ℤ) : ℕ :=
  if gridY < 0 ∨ m.height ≤ gridY then 1
  else if gridX < 0 ∨ m.width ≤ gridX then 1
  else jsOr1 (m.grid gridY gridX)

/-- `Maze.getCell(worldX, worldY)`: floor-divides the world coordinates by
`cellSize` and then performs the same bounds-checked `|| 1` read as
`getGridCell`. -/
def getCell (m : Maze) (worldX worldY : ℚ) : ℕ :=
  let x : ℤ := jsFloor (worldX / m.cellSize)
  let y : ℤ := jsFloor (worldY / m.cellSize)
  if y < 0 ∨ m.height ≤ y then 1
  else if x < 0 ∨ m.width ≤ x then 1
  else jsOr1 (m.grid y x)

/-- `Maze.isWall(x, y)` on world coordinates (the default
`isGridCoord = false` branch): `this.getCell(x, y) === 1`. -/
def isWall (m : Maze) (worldX worldY : ℚ) : Bool :=
  decide (getCell m worldX worldY = 1)

/-- `Maze.getCellWarped(worldX, worldY, playerX, playerY, lightRadius)`
(display-only warped read; `sqrtF`, `sinF`, `cosF` stand for `Math.sqrt`,
`Math.sin`, `Math.cos`).  The method writes no instance field, so the
threaded state is returned unchanged. -/
def getCellWarped (sqrtF sinF cosF : ℚ → ℚ) (m : Maze)
    (worldX worldY playerX playerY lightRadius : ℚ) : ℕ × Maze :=
  let dist := sqrtF ((playerX - worldX) ^ 2 + (playerY - worldY) ^ 2)
  let warpAmount : ℚ :=
    if lightRadius < dist then
      min 1 ((dist - lightRadius) / lightRadius) * 0.15
    else 0
  let warpX := worldX + sinF (worldY * 0.1 + m.warpSeed) * warpAmount
  let warpY := worldY + cosF (worldX * 0.1 + m.warpSeed) * warpAmount
  let x : ℤ := jsFloor (warpX / m.cellSize)
  let y : ℤ := jsFloor (warpY / m.cellSize)
  (if x < 0 ∨ m.width ≤ x ∨ y < 0 ∨ m.height ≤ y then 1 else m.grid y x, m)

/-- `Maze.update(deltaTime, playerX, playerY)`: advances the two
display-effect fields only. -/
def update (m : Maze) (deltaTime _playerX _playerY : ℚ) : Maze :=
  { m with
    surrealOffset := m.surrealOffset + deltaTime * 0.02,
    warpSeed := m.warpSeed + deltaTime * 0.01 }

/-- `Maze.getSpawnPosition()`: spawn fixed at cell `(1, 1)`; if that cell
is valid and not a path it is forced to a path, and the centre of the cell
is returned (otherwise the fallback point). -/
def getSpawnPosition (m : Maze) : Maze × (ℚ × ℚ) :=
  if isValidCell m.width m.height 1 1 then
    let m2 := if m.grid 1 1 ≠ 0 then { m with grid := gridSet m.grid 1 1 0 } else m
    (m2, (1 * m.cellSize + m.cellSize / 2, 1 * m.cellSize + m.cellSize / 2))
  else
    (m, (m.cellSize + m.cellSize / 2, m.cellSize + m.cellSize / 2))

/-- `Maze.getExitPosition()`: `null` while `this.exitX`/`this.exitY` are
unset, otherwise the world position of the exit cell. -/
def getExitPosition (m : Maze) : Option (ℚ × ℚ) :=
  m.exit.map fun e => ((e.1 : ℚ) * m.cellSize, (e.2 : ℚ) * m.cellSize)

end Maze

namespace Game

/-- The `deltaTime` computation of `gameLoop()` in main.js:
`Math.min((currentTime - this.lastTime) / 1000, 0.033)`. -/
def gameLoopDeltaTime (currentTime lastTime : ℚ) : ℚ :=
  min ((currentTime - lastTime) / 1000) 0.033

end Game

/-- C7: for every pair of clock readings, the elapsed-time value handed to
the per-frame update by `gameLoop` is clamped to at most 0.033 seconds. -/
theorem gameLoop_deltaTime_le_33ms (currentTime lastTime : ℚ) :
    Game.gameLoopDeltaTime currentTime lastTime ≤ 0.033 :=
  min_le_right _ _

/-- A 3x3 maze whose only interior cell `(1, 1)` stores a path (0). -/
def mazeC2 : Maze :=
  { width := 3, height := 3, cellSize := 1/2, seed := 0, rng := 0,
    grid := fun y x => if y = 1 ∧ x = 1 then 0 else 1,
    visited := fun _ _ => false, surrealOffset := 0, warpSeed := 0, exit := none }

unseal Rat.add Rat.mul Rat.inv Rat.ofScientific Rat.sub in
/-- C2 (code bug): the in-bounds cell `(1, 1)` stores the path value 0,
yet `getGridCell` reports 1 (wall) because `this.grid[y][x] || 1` coerces
the stored 0 to 1, and consequently the world-coordinate queries `getCell`
and `isWall` report a wall at the centre of that cell as well. -/
theorem getCell_coerces_stored_path_to_wall :
    mazeC2.grid 1 1 = 0 ∧ Maze.getGridCell mazeC2 1 1 = 1 ∧
    Maze.getCell mazeC2 0.75 0.75 = 1 ∧ Maze.isWall mazeC2 0.75 0.75 = true := by
  decide

namespace Maze

theorem generate_error_exists (m : Maze) (sx sy : ℤ) :
    ∃ mz : Maze, generate m sx sy = Except.error mz := by
  unfold generate carvePath
  exact ⟨_, rfl⟩

end Maze

/-- C1 (code bug): `generate()` never produces a grid at all — every call
throws a `TypeError` when `carvePath` assigns to its `const` binding
`directions`, so the pair of completed, cell-for-cell identical grids the
claim speaks of is never computed: the caller observes the exception, not
a returned grid. -/
theorem generate_never_completes (m : Maze) (sx sy : ℤ) :
    ∃ mAbort : Maze, Maze.generate m sx sy = Except.error mAbort :=
  Maze.generate_error_exists m sx sy

/-- A fresh 5x5 maze instance with seed 1 (small enough to evaluate the
aborted generation call inside the kernel). -/
def mazeC3 : Maze :=
  { width := 5, height := 5, cellSize := 1/2, seed := 1, rng := 1,
    grid := fun _ _ => 1, visited := fun _ _ => false,
    surrealOffset := 0, warpSeed := 0, exit := none }

/-- C3 (code bug): the claimed post-`generate()` enclosure state is never
reached.  On the fresh 5x5 seed-1 instance, `generate()` throws (the
`const` reassignment inside the first `carvePath` call), and the instance
the exception handler observes has the border cells at column 0, row 1
(`grid 1 0`) and column 1, row 0 (`grid 0 1`) already carved to PATH by
`clearSpawnArea`, the spawn cell carved, and no exit recorded, because
`createExit` never runs. -/
theorem generate_aborts_with_border_paths :
    (Maze.thrownState (Maze.generate mazeC3 1 1)).map
        (fun mz => (mz.grid 1 0, mz.grid 0 1, mz.grid 1 1, mz.exit)) =
      some (0, 0, 0, none) := by
  decide

/-- C4 (code bug): the post-`generate()` half of the claim describes a
state the program never reaches — `generate()` throws inside its first
`carvePath` call, before `ensureHallwaySpawn` executes — while the
defensive half does hold: `getSpawnPosition` forces the spawn cell
`(1, 1)` to PATH whenever it is stored as a wall and returns the centre of
that cell. -/
theorem getSpawnPosition_defensive_force_only (m : Maze) (hw : 3 ≤ m.width)
    (hh : 3 ≤ m.height) :
    (∃ mAbort : Maze, Maze.generate m 1 1 = Except.error mAbort) ∧
    ((Maze.getSpawnPosition m).1.grid 1 1 = 0 ∧
      (Maze.getSpawnPosition m).2 =
        (m.cellSize + m.cellSize / 2, m.cellSize + m.cellSize / 2)) := by
  refine ⟨Maze.generate_error_exists m 1 1, ?_⟩
  have hvalid : Maze.isValidCell m.width m.height 1 1 = true := by
    simp only [Maze.isValidCell, decide_eq_true_eq]
    omega
  rw [Maze.getSpawnPosition, if_pos hvalid]
  constructor
  · by_cases hg : m.grid 1 1 ≠ 0
    · rw [if_pos hg]
      simp [gridSet]
    · rw [if_neg hg]
      simpa using hg
  · norm_num

/-- A fresh 9x9 maze instance with seed 42. -/
def mazeC4 : Maze :=
  { width := 9, height := 9, cellSize := 1/2, seed := 42, rng := 42,
    grid := fun _ _ => 1, visited := fun _ _ => false,
    surrealOffset := 0, warpSeed := 0, exit := none }

/-- Witness for C4 at a concrete 9x9 seed-42 instance. -/
theorem getSpawnPosition_defensive_force_only_witness :
    (∃ mAbort : Maze, Maze.generate mazeC4 1 1 = Except.error mAbort) ∧
    ((Maze.getSpawnPosition mazeC4).1.grid 1 1 = 0 ∧
      (Maze.getSpawnPosition mazeC4).2 =
        (mazeC4.cellSize + mazeC4.cellSize / 2, mazeC4.cellSize + mazeC4.cellSize / 2)) :=
  getSpawnPosition_defensive_force_only mazeC4 (by decide) (by decide)

namespace Maze

theorem createExitGo_find (s : GenState) (l : List ExitEdge)
    (hbnd : ∀ e ∈ l, 0 ≤ e.x + e.dx ∧ e.x + e.dx < s.width ∧
      0 ≤ e.y + e.dy ∧ e.y + e.dy < s.height) :
    (match l.find? (fun e => s.grid e.y e.x == 0) with
      | some e => createExitGo s l =
          { s with grid := gridSet s.grid (e.y + e.dy) (e.x + e.dx) 0,
                   exitUpd := some (e.x + e.dx, e.y + e.dy) }
      | none => createExitGo s l = s) := by
  induction l with
  | nil => rfl
  | cons e rest ih =>
    rw [List.find?_cons]
    by_cases h1 : s.grid e.y e.x = 0
    · have hbeq : (s.grid e.y e.x == 0) = true := by
        simp [h1]
      rw [hbeq]
      simp only [createExitGo]
      rw [if_pos h1, if_pos (hbnd e (List.mem_cons_self e rest))]
    · have hbeq : (s.grid e.y e.x == 0) = false := by
        simp [h1]
      rw [hbeq]
      have hskip : createExitGo s (e :: rest) = createExitGo s rest := by
        simp only [createExitGo]
        rw [if_neg h1]
      rw [← hskip] at ih
      exact ih fun e2 he2 => hbnd e2 (List.mem_cons_of_mem e he2)

end Maze

/-- C6: `createExit` scans the four border mid-point candidates in the
fixed order east, south, west, north (the order of `exitEdges`); the first
candidate whose probed interior-adjacent cell is PATH has its outward
neighbor carved and recorded as the exit, and nothing else changes; if no
candidate qualifies the state is returned untouched (exit coordinates
remain unset and the grid unchanged), and `getExitPosition()` on a maze
without an exit returns `none` rather than crashing. -/
theorem createExit_first_candidate_or_unset (s : GenState)
    (hw : 3 ≤ s.width) (hh : 3 ≤ s.height) :
    (match (Maze.exitEdges s.width s.height).find? (fun e => s.grid e.y e.x == 0) with
      | some e => Maze.createExit s =
          { s with grid := gridSet s.grid (e.y + e.dy) (e.x + e.dx) 0,
                   exitUpd := some (e.x + e.dx, e.y + e.dy) }
      | none => Maze.createExit s = s)
    ∧ (∀ mz : Maze, mz.exit = none → Maze.getExitPosition mz = none) := by
  constructor
  · exact Maze.createExitGo_find s (Maze.exitEdges s.width s.height) (by
      intro e he
      fin_cases he <;> (simp only [] ; omega))
  · intro mz hmz
    rw [Maze.getExitPosition, hmz]
    rfl

/-- A generation state whose interior is fully carved. -/
def genStateC6 : GenState :=
  { width := 5, height := 5,
    grid := fun y x => if 0 < x ∧ x < 4 ∧ 0 < y ∧ y < 4 then 0 else 1,
    visited := fun _ _ => false, rng := 0, exitUpd := none }

/-- Witness for C6 at a concrete 5x5 generation state and a concrete
exit-less maze. -/
theorem createExit_first_candidate_or_unset_witness :
    (match (Maze.exitEdges genStateC6.width genStateC6.height).find?
        (fun e => genStateC6.grid e.y e.x == 0) with
      | some e => Maze.createExit genStateC6 =
          { genStateC6 with
              grid := gridSet genStateC6.grid (e.y + e.dy) (e.x + e.dx) 0,
              exitUpd := some (e.x + e.dx, e.y + e.dy) }
      | none => Maze.createExit genStateC6 = genStateC6)
    ∧ (∀ mz : Maze, mz.exit = none → Maze.getExitPosition mz = none) :=
  createExit_first_candidate_or_unset genStateC6 (by decide) (by decide)

/-- The renderer settings used by `castRay` and `renderSprites`:
`this.width`, `this.fov` and `this.maxDepth`. -/
structure Renderer where
  width : ℚ
  fov : ℚ
  maxDepth : ℚ
deriving DecidableEq

/-- The mutable per-ray state of the DDA loop of `castRay`:
`sideDistX`, `sideDistY`, `mapX`, `mapY`, `side`. -/
structure DDAState where
  sideDistX : ℚ
  sideDistY : ℚ
  mapX : ℤ
  mapY : ℤ
  side : ℕ
deriving DecidableEq

/-- The result record of `castRay`. -/
structure RayHit where
  distance : ℚ
  hitX : ℚ
  hitY : ℚ
  side : ℕ
  mapX : ℤ
  mapY : ℤ
deriving DecidableEq

namespace RaycastRenderer

/-- The call `maze.getGridCell(mapX, mapY)` with the maze state threaded
through (the method performs no writes, so it returns its state). -/
def getGridCellM (m : Maze) (gx gy : ℤ) : ℕ × Maze :=
  (Maze.getGridCell m gx gy, m)

/-- The `while (true)` DDA loop of `castRay` with an explicit fuel
parameter standing for the unbounded loop; the returned boolean records
whether the loop exited via one of its two `break` conditions (wall hit,
or depth exceeded) rather than by running out of fuel.
`castRay_ddaLoop_exits` shows a single iteration always suffices. -/
def ddaLoop (r : Renderer) (cellSize gridX gridY c s : ℚ) (stepX stepY : ℤ)
    (deltaX deltaY : ℚ) : ℕ → DDAState → Maze → DDAState × Maze × Bool
  | 0, st, m => (st, m, false)
  | fuel + 1, st, m =>
    let st1 := if st.sideDistX < st.sideDistY then
        { st with sideDistX := st.sideDistX + deltaX, mapX := st.mapX + stepX, side := 0 }
      else
        { st with sideDistY := st.sideDistY + deltaY, mapY := st.mapY + stepY, side := 1 }
    let pc := getGridCellM m st1.mapX st1.mapY
    if pc.1 = 1 then (st1, pc.2, true)
    else
      let dist := if st1.side = 0 then
          (((st1.mapX : ℚ) - gridX + (((1 - stepX : ℤ) : ℚ)) / 2) * cellSize) / c
        else (((st1.mapY : ℚ) - gridY + (((1 - stepY : ℤ) : ℚ)) / 2) * cellSize) / s
      if r.maxDepth < dist then (st1, pc.2, true)
      else ddaLoop r cellSize gridX gridY c s stepX stepY deltaX deltaY fuel st1 pc.2

/-- Fuel handed to the `while (true)` loop by the model. -/
def ddaFuel : ℕ := 1000

/-- The setup of `castRay(startX, startY, angle, maze)` up to and
including the DDA loop (`sinF`/`cosF` stand for `Math.sin`/`Math.cos`). -/
def castRayLoopResult (sinF cosF : ℚ → ℚ) (r : Renderer) (startX startY angle : ℚ)
    (m : Maze) (fuel : ℕ) : DDAState × Maze × Bool :=
  let s := sinF angle
  let c := cosF angle
  let cellSize := m.cellSize
  let gridX := startX / cellSize
  let gridY := startY / cellSize
  let deltaX := |cellSize / c|
  let deltaY := |cellSize / s|
  let stepX : ℤ := if c < 0 then -1 else 1
  let sideDistX := if c < 0 then (gridX - (jsFloor gridX : ℚ)) * deltaX
    else ((jsFloor gridX : ℚ) + 1 - gridX) * deltaX
  let stepY : ℤ := if s < 0 then -1 else 1
  let sideDistY := if s < 0 then (gridY - (jsFloor gridY : ℚ)) * deltaY
    else ((jsFloor gridY : ℚ) + 1 - gridY) * deltaY
  let st0 : DDAState := { sideDistX := sideDistX, sideDistY := sideDistY, mapX := jsFloor gridX, mapY := jsFloor gridY, side := 0 }
  ddaLoop r cellSize gridX gridY c s stepX stepY deltaX deltaY fuel st0 m

/-- `castRay(startX, startY, angle, maze)`: runs the DDA loop and converts
the stopping boundary back to a world-space hit distance and hit point. -/
def castRay (sinF cosF : ℚ → ℚ) (r : Renderer) (startX startY angle : ℚ)
    (m : Maze) (fuel : ℕ) : RayHit × Maze :=
  let s := sinF angle
  let c := cosF angle
  let cellSize := m.cellSize
  let gridX := startX / cellSize
  let gridY := startY / cellSize
  let stepX : ℤ := if c < 0 then -1 else 1
  let stepY : ℤ := if s < 0 then -1 else 1
  let res := castRayLoopResult sinF cosF r startX startY angle m fuel
  let st := res.1
  let distance := if st.side = 0 then
      (((st.mapX : ℚ) - gridX + (((1 - stepX : ℤ) : ℚ)) / 2) * cellSize) / c
    else (((st.mapY : ℚ) - gridY + (((1 - stepY : ℤ) : ℚ)) / 2) * cellSize) / s
  ({ distance := |distance|, hitX := startX + distance * c, hitY := startY + distance * s, side := st.side, mapX := st.mapX, mapY := st.mapY }, res.2.1)

end RaycastRenderer

namespace RaycastRenderer

theorem getGridCell_eq_one (m : Maze) (hbin : ∀ cx cy : ℤ, m.grid cy cx ≤ 1)
    (gx gy : ℤ) : Maze.getGridCell m gx gy = 1 := by
  rw [Maze.getGridCell]
  split
  · rfl
  · split
    · rfl
    · have h := hbin gx gy
      interval_cases hcell : m.grid gy gx <;> rfl

theorem ddaLoop_succ_eq_one (r : Renderer) (cellSize gridX gridY c s : ℚ)
    (stepX stepY : ℤ) (deltaX deltaY : ℚ) (m : Maze)
    (hbin : ∀ cx cy : ℤ, m.grid cy cx ≤ 1) (st : DDAState) (k : ℕ) :
    ddaLoop r cellSize gridX gridY c s stepX stepY deltaX deltaY (k + 1) st m =
      ddaLoop r cellSize gridX gridY c s stepX stepY deltaX deltaY 1 st m ∧
    (ddaLoop r cellSize gridX gridY c s stepX stepY deltaX deltaY (k + 1) st m).2.2 = true := by
  have hg : ∀ a b : ℤ, (getGridCellM m a b).1 = 1 :=
    fun a b => getGridCell_eq_one m hbin a b
  constructor
  · simp only [ddaLoop]
    rw [if_pos (hg _ _), if_pos (hg _ _)]
  · simp only [ddaLoop]
    rw [if_pos (hg _ _)]

end RaycastRenderer

/-- C5: on any maze whose grid stores only 0/1 cell values (all generated
grids do), the DDA loop of `castRay` reaches a `break` — in fact on the
very first iteration, because `getGridCell` reports every cell as wall
(`grid[y][x] || 1` coerces stored 0 to 1) — so for every origin, direction
and fuel bound of at least one step the loop has exited and `castRay`
returns a value independent of the fuel: the `while (true)` loop
terminates well within any bound proportional to `maxDepth / cellSize`. -/
theorem castRay_terminates (sinF cosF : ℚ → ℚ) (r : Renderer)
    (startX startY angle : ℚ) (m : Maze)
    (hbin : ∀ cx cy : ℤ, m.grid cy cx ≤ 1) (fuel : ℕ) (hfuel : 1 ≤ fuel) :
    (RaycastRenderer.castRayLoopResult sinF cosF r startX startY angle m fuel).2.2 = true ∧
    RaycastRenderer.castRay sinF cosF r startX startY angle m fuel =
      RaycastRenderer.castRay sinF cosF r startX startY angle m 1 := by
  obtain ⟨k, rfl⟩ : ∃ k, fuel = k + 1 := ⟨fuel - 1, by omega⟩
  have h := RaycastRenderer.ddaLoop_succ_eq_one r m.cellSize (startX / m.cellSize)
    (startY / m.cellSize) (cosF angle) (sinF angle)
    (if cosF angle < 0 then -1 else 1) (if sinF angle < 0 then -1 else 1)
    (|m.cellSize / cosF angle|) (|m.cellSize / sinF angle|) m hbin
    { sideDistX := if cosF angle < 0 then
        (startX / m.cellSize - (jsFloor (startX / m.cellSize) : ℚ)) * |m.cellSize / cosF angle|
      else ((jsFloor (startX / m.cellSize) : ℚ) + 1 - startX / m.cellSize) * |m.cellSize / cosF angle|,
      sideDistY := if sinF angle < 0 then
        (startY / m.cellSize - (jsFloor (startY / m.cellSize) : ℚ)) * |m.cellSize / sinF angle|
      else ((jsFloor (startY / m.cellSize) : ℚ) + 1 - startY / m.cellSize) * |m.cellSize / sinF angle|,
      mapX := jsFloor (startX / m.cellSize), mapY := jsFloor (startY / m.cellSize), side := 0 } k
  constructor
  · exact h.2
  · rw [RaycastRenderer.castRay, RaycastRenderer.castRay]
    have hres : RaycastRenderer.castRayLoopResult sinF cosF r startX startY angle m (k + 1) =
        RaycastRenderer.castRayLoopResult sinF cosF r startX startY angle m 1 := by
      rw [RaycastRenderer.castRayLoopResult, RaycastRenderer.castRayLoopResult]
      exact h.1
    rw [hres]

/-- A maze whose grid is entirely walls. -/
def mazeC5 : Maze :=
  { width := 5, height := 5, cellSize := 1/2, seed := 0, rng := 0,
    grid := fun _ _ => 1, visited := fun _ _ => false,
    surrealOffset := 0, warpSeed := 0, exit := none }

/-- Witness for C5 at a concrete renderer, maze, origin, direction and
fuel bound. -/
theorem castRay_terminates_witness :
    (RaycastRenderer.castRayLoopResult (fun _ => 1/100) (fun _ => 99/100)
      { width := 4, fov := 2, maxDepth := 20 } (3/4) (3/4) 0 mazeC5 40).2.2 = true ∧
    RaycastRenderer.castRay (fun _ => 1/100) (fun _ => 99/100)
      { width := 4, fov := 2, maxDepth := 20 } (3/4) (3/4) 0 mazeC5 40 =
      RaycastRenderer.castRay (fun _ => 1/100) (fun _ => 99/100)
        { width := 4, fov := 2, maxDepth := 20 } (3/4) (3/4) 0 mazeC5 1 :=
  castRay_terminates (fun _ => 1/100) (fun _ => 99/100)
    { width := 4, fov := 2, maxDepth := 20 } (3/4) (3/4) 0 mazeC5
    (fun _ _ => le_refl 1) 40 (by decide)

namespace Player

/-- The sample offsets spanning the collision radius used by the
per-axis checks of `Player.update`: `(i / 4) * radius * 2 - radius` for
`i = 0..3` (`checkPointsX = checkPointsY = 4`). -/
def sampleOffsets (radius : ℚ) : List ℚ :=
  (List.range 4).map fun i => ((i : ℚ) / 4) * radius * 2 - radius

/-- The collision/movement block of `Player.update(deltaTime, maze)`,
given the intended displacement `(moveX, moveY)` (already scaled by speed
and elapsed time): per-axis sample checks against `maze.isWall`, then the
slide fallback when both axes are blocked and the intended movement is
nonzero, then the per-axis application.  The maze state is threaded
through and returned; the method assigns no maze field. -/
def update (m : Maze) (radius px py moveX moveY : ℚ) : (ℚ × ℚ) × Maze :=
  let newX := px + moveX
  let newY := py + moveY
  let canMoveX := (sampleOffsets radius).all fun o => !(Maze.isWall m newX (py + o))
  let canMoveY := (sampleOffsets radius).all fun o => !(Maze.isWall m (px + o) newY)
  let pos :=
    if !canMoveX && !canMoveY && (decide (moveX ≠ 0) || decide (moveY ≠ 0)) then
      if decide (moveX ≠ 0) &&
          ((sampleOffsets radius).all fun o => !(Maze.isWall m newX (py + o))) then
        (newX, py)
      else if decide (moveY ≠ 0) &&
          ((sampleOffsets radius).all fun o => !(Maze.isWall m (px + o) newY)) then
        (px, newY)
      else (if canMoveX then newX else px, if canMoveY then newY else py)
    else (if canMoveX then newX else px, if canMoveY then newY else py)
  (pos, m)

end Player

/-- A maze whose stored grid is PATH everywhere (in bounds and out). -/
def mazeC8 : Maze :=
  { width := 8, height := 8, cellSize := 1/2, seed := 0, rng := 0,
    grid := fun _ _ => 0, visited := fun _ _ => false,
    surrealOffset := 0, warpSeed := 0, exit := none }

unseal Rat.add Rat.mul Rat.inv Rat.ofScientific Rat.sub in
/-- C8 (code bug): a player at `(2, 2)` with intended displacement
`(0.1, 0.1)` on a maze whose stored grid is PATH at every cell sampled by
the X-only move (indeed everywhere) does not move at all: every `isWall`
query reports a wall (the `|| 1` coercion in `getCell`), so both per-axis
checks fail, and the slide fallback — which re-runs exactly the same
sample tests — fails with them, leaving the player fully stationary
instead of applying the clear single-axis move. -/
theorem player_stationary_despite_clear_axis :
    (∀ o ∈ Player.sampleOffsets (3/20),
      mazeC8.grid (jsFloor ((2 + o) / mazeC8.cellSize))
        (jsFloor ((2 + 1/10) / mazeC8.cellSize)) = 0) ∧
    ((1 : ℚ)/10 ≠ 0) ∧
    (Player.update mazeC8 (3/20) 2 2 (1/10) (1/10)).1 = (2, 2) := by
  decide

namespace RaycastRenderer

theorem ddaLoop_maze (r : Renderer) (cellSize gridX gridY c s : ℚ) (stepX stepY : ℤ)
    (deltaX deltaY : ℚ) (fuel : ℕ) (st : DDAState) (m : Maze) :
    (ddaLoop r cellSize gridX gridY c s stepX stepY deltaX deltaY fuel st m).2.1 = m := by
  induction fuel generalizing st m with
  | zero => rfl
  | succ fuel ih =>
    simp only [ddaLoop]
    repeat' split
    all_goals first
    | rfl
    | exact ih _ _

theorem castRay_maze (sinF cosF : ℚ → ℚ) (r : Renderer) (startX startY angle : ℚ)
    (m : Maze) (fuel : ℕ) :
    (castRay sinF cosF r startX startY angle m fuel).2 = m := by
  simp only [castRay, castRayLoopResult]
  exact ddaLoop_maze _ _ _ _ _ _ _ _ _ _ _ _ _

end RaycastRenderer

/-- C10: none of the readers of the grid mutate it: the visual-effect
update `Maze.update` advances only `surrealOffset` and `warpSeed`;
`castRay` threads the maze untouched through its DDA loop;
`getCellWarped` computes a display-time value without writes; and the
player movement block reads `isWall` but returns the maze unchanged. -/
theorem readers_do_not_mutate_grid (m : Maze)
    (dt px py wx wy lr radius mx my sx sy ang : ℚ)
    (sqrtF sinF cosF : ℚ → ℚ) (r : Renderer) (fuel : ℕ) :
    (Maze.update m dt px py).grid = m.grid ∧
    ((RaycastRenderer.castRay sinF cosF r sx sy ang m fuel).2).grid = m.grid ∧
    ((Maze.getCellWarped sqrtF sinF cosF m wx wy px py lr).2).grid = m.grid ∧
    ((Player.update m radius px py mx my).2).grid = m.grid := by
  refine ⟨?_, ?_, ?_, ?_⟩
  · simp [Maze.update]
  · rw [RaycastRenderer.castRay_maze]
  · simp only [Maze.getCellWarped]
  · simp only [Player.update]

/-- A sprite as supplied to `renderSprites` (item or hazard): position and
visibility flag. -/
structure SpriteIn where
  x : ℚ
  y : ℚ
  visible : Bool
deriving DecidableEq

/-- A sprite augmented by the `.map` stage of `renderSprites`:
`{ ...sprite, dist, angle, spriteAngle, screenX, columnIndex }`. -/
structure SpriteView where
  x : ℚ
  y : ℚ
  visible : Bool
  dist : ℚ
  angle : ℚ
  spriteAngle : ℚ
  screenX : ℚ
  columnIndex : ℤ
deriving DecidableEq

namespace RaycastRenderer

/-- The `.map` stage of `renderSprites`: distance, angle relative to the
camera, and projected screen column of one sprite (`sqrtF` and `atan2F`
stand for `Math.sqrt` and `Math.atan2`). -/
def spriteProject (sqrtF : ℚ → ℚ) (atan2F : ℚ → ℚ → ℚ) (r : Renderer)
    (px py camAngle : ℚ) (sp : SpriteIn) : SpriteView :=
  let dx := sp.x - px
  let dy := sp.y - py
  let dist := sqrtF (dx * dx + dy * dy)
  let spriteAngle := atan2F dy dx
  let relativeAngle := spriteAngle - camAngle
  let screenX := (relativeAngle / r.fov) * r.width + r.width / 2
  { x := sp.x, y := sp.y, visible := sp.visible, dist := dist, angle := relativeAngle, spriteAngle := spriteAngle, screenX := screenX, columnIndex := jsFloor screenX }

/-- The second `.filter` stage of `renderSprites`: discard sprites outside
the half-FOV or closer than 0.3; discard sprites occluded per the cached
per-column wall distance (when the column is in range); discard sprites
occluded per an independent `castRay` toward the sprite's exact angle. -/
def spriteFilter (sinF cosF : ℚ → ℚ) (r : Renderer) (m : Maze) (px py : ℚ)
    (rayDistances : List ℚ) (sp : SpriteView) : Bool :=
  if r.fov / 2 ≤ |sp.angle| ∨ sp.dist ≤ 0.3 then false
  else if (0 ≤ sp.columnIndex ∧ sp.columnIndex < (rayDistances.length : ℤ)) ∧
      rayDistances.getD sp.columnIndex.toNat 0 < sp.dist - 0.1 then false
  else if (castRay sinF cosF r px py sp.spriteAngle m ddaFuel).1.distance
      < sp.dist - 0.1 then false
  else true

/-- `renderSprites(player, items, hazards, maze, rayDistances)` up to the
list of sprites that are actually drawn, in drawing order: concatenate
items and hazards, keep the visible ones, project, filter, and sort by the
comparator `(a, b) => b.dist - a.dist` (back to front). -/
def renderSprites (sqrtF : ℚ → ℚ) (atan2F : ℚ → ℚ → ℚ) (sinF cosF : ℚ → ℚ)
    (r : Renderer) (px py camAngle : ℚ) (items hazards : List SpriteIn)
    (m : Maze) (rayDistances : List ℚ) : List SpriteView :=
  ((((items ++ hazards).filter fun sp => sp.visible).map
      (spriteProject sqrtF atan2F r px py camAngle)).filter
    (spriteFilter sinF cosF r m px py rayDistances)).mergeSort
      fun a b => decide (b.dist ≤ a.dist)

end RaycastRenderer

/-- C9: every sprite surviving the `renderSprites` filter has absolute
camera-relative angle strictly below half the FOV, distance strictly above
0.3, and an independent ray cast toward the sprite's exact angle that hits
no wall nearer than the sprite's distance minus the 0.1 tolerance (so a
sprite strictly behind a wall as measured by that ray never appears); and
the surviving sprites are drawn back to front (sorted by non-increasing
distance). -/
theorem renderSprites_occlusion_and_order (sqrtF : ℚ → ℚ) (atan2F : ℚ → ℚ → ℚ)
    (sinF cosF : ℚ → ℚ) (r : Renderer) (px py camAngle : ℚ)
    (items hazards : List SpriteIn) (m : Maze) (rayDistances : List ℚ) :
    (∀ sp ∈ RaycastRenderer.renderSprites sqrtF atan2F sinF cosF r px py camAngle
        items hazards m rayDistances,
      |sp.angle| < r.fov / 2 ∧ 0.3 < sp.dist ∧
        ¬((RaycastRenderer.castRay sinF cosF r px py sp.spriteAngle m
            RaycastRenderer.ddaFuel).1.distance < sp.dist - 0.1)) ∧
    List.Pairwise (fun a b => b.dist ≤ a.dist)
      (RaycastRenderer.renderSprites sqrtF atan2F sinF cosF r px py camAngle
        items hazards m rayDistances) := by
  constructor
  · intro sp hsp
    rw [RaycastRenderer.renderSprites, List.mem_mergeSort] at hsp
    have hf := List.of_mem_filter hsp
    rw [RaycastRenderer.spriteFilter] at hf
    split at hf
    · exact absurd hf (by simp)
    · split at hf
      · exact absurd hf (by simp)
      · split at hf
        · exact absurd hf (by simp)
        · rename_i h1 h2 h3
          rw [not_or, not_le, not_le] at h1
          exact ⟨h1.1, h1.2, h3⟩
  · rw [RaycastRenderer.renderSprites]
    have hs := @List.sorted_mergeSort SpriteView
      (fun a b => decide (b.dist ≤ a.dist))
      (fun a b c hab hbc => by
        rw [decide_eq_true_eq] at hab hbc ⊢
        exact le_trans hbc hab)
      (fun a b : SpriteView => by
        rcases le_total b.dist a.dist with hle | hle <;> simp [hle])
      ((((items ++ hazards).filter fun sp => sp.visible).map
        (RaycastRenderer.spriteProject sqrtF atan2F r px py camAngle)).filter
          (RaycastRenderer.spriteFilter sinF cosF r m px py rayDistances))
    exact hs.imp fun h => of_decide_eq_true h

/-- The sprite used by the C9 witness. -/
def spriteC9 : SpriteIn := { x := 91/100, y := 3/4, visible := true }

/-- The renderer used by the C9 witness. -/
def rendererC9 : Renderer := { width := 4, fov := 2, maxDepth := 20 }

/-- The projected view of `spriteC9` from `(51/100, 3/4)` at camera
angle 0 under the witness parameter functions. -/
def spriteViewC9 : SpriteView :=
  { x := 91/100, y := 3/4, visible := true, dist := 2/5, angle := 0, spriteAngle := 0, screenX := 2, columnIndex := 2 }

unseal List.mergeSort List.merge Rat.add Rat.mul Rat.inv Rat.ofScientific Rat.sub in
/-- Witness for C9: a concrete configuration in which one sprite survives
the filter, with the surviving sprite satisfying the three filter
properties. -/
theorem renderSprites_occlusion_and_order_witness :
    spriteViewC9 ∈ RaycastRenderer.renderSprites (fun _ => 2/5) (fun _ _ => 0)
      (fun _ => 1/100) (fun _ => 99/100) rendererC9 (51/100) (3/4) 0
      [spriteC9] [] mazeC5 [] ∧
    (|spriteViewC9.angle| < rendererC9.fov / 2 ∧ 0.3 < spriteViewC9.dist ∧
      ¬((RaycastRenderer.castRay (fun _ => 1/100) (fun _ => 99/100) rendererC9
          (51/100) (3/4) spriteViewC9.spriteAngle mazeC5
          RaycastRenderer.ddaFuel).1.distance < spriteViewC9.dist - 0.1)) :=
  ⟨by decide,
    (renderSprites_occlusion_and_order (fun _ => 2/5) (fun _ _ => 0)
      (fun _ => 1/100) (fun _ => 99/100) rendererC9 (51/100) (3/4) 0
      [spriteC9] [] mazeC5 []).1 spriteViewC9 (by decide)⟩
